import Mathlib

/-!
Verification development for the Xen-OVA → oVirt import tool
(`convert.py`).

The Python source is shallowly embedded below:

* XML documents (as produced by `lxml.etree`) become the inductive
  `Element` (tag, attributes, optional text, children).
* The mutable `VM` object becomes an immutable structure threaded
  through the readers.
* Every `raise` site of the Python code becomes a constructor of the
  closed error type `ConvError`; Python functions that can raise
  return `Except ConvError _`.
* Python's `int(...)` is modelled by `pyInt` (sign + decimal digits);
  unbounded Python integers become `Int`.
* The regular-expression check `VM_NAME_PATTERN.fullmatch` (pattern
  `[\w.-]*`) is modelled over the ASCII range, where `\w` is exactly
  `[A-Za-z0-9_]`.
* `subprocess.call` of `qemu-img` becomes an oracle
  `tool : String → String → Int` giving the exit status for a
  source/destination pair; `convert_disks` additionally returns the
  list of command lines it invoked, so that "the external tool is
  never invoked" is expressible.
-/

/-- An XML element: tag (namespace-qualified, lxml style
`\x7buri\x7dlocal`), attribute list, optional text content, children. -/
inductive Element : Type where
  | mk : String → List (String × String) → Option String → List Element → Element

def Element.tag : Element → String
  | .mk t _ _ _ => t

def Element.attribs : Element → List (String × String)
  | .mk _ a _ _ => a

def Element.text : Element → Option String
  | .mk _ _ t _ => t

def Element.children : Element → List Element
  | .mk _ _ _ c => c

/-- Attribute lookup, `elem.attrib[k]` (returning `none` where Python
raises `KeyError`). -/
def Element.attr (e : Element) (k : String) : Option String :=
  e.attribs.lookup k

/-- The `XML_NAMESPACES` dict of `convert.py` (total function; only the
listed keys are ever used). -/
def XML_NAMESPACES : String → String
  | "ovf" => "http://schemas.dmtf.org/ovf/envelope/1"
  | "ovirt" => "http://www.ovirt.org/ovf"
  | "rasd" => "http://schemas.dmtf.org/wbem/wscim/1/cim-schema/2/CIM_ResourceAllocationSettingData"
  | "vssd" => "http://schemas.dmtf.org/wbem/wscim/1/cim-schema/2/CIM_VirtualSystemSettingData"
  | "xsi" => "http://www.w3.org/2001/XMLSchema-instance"
  | "xenovf" => "http://schemas.citrix.com/ovf/envelope/1"
  | _ => ""

/-- `prefix_ns` of `convert.py`: `"\x7b%s\x7d%s" % (XML_NAMESPACES[ns], val)`. -/
def ns_tag (ns val : String) : String :=
  "\x7b" ++ XML_NAMESPACES ns ++ "\x7d" ++ val

-- The `ResourceType` enumeration of `convert.py`.
namespace ResourceType

def OTHER : Int := 0
def CPU : Int := 3
def MEMORY : Int := 4
def ETHERNET : Int := 10
def NET_OTHER : Int := 11
def FLOPPY_DRIVE : Int := 14
def CD_DRIVE : Int := 15
def DVD_DRIVE : Int := 16
def DISK_DRIVE : Int := 17
def STORAGE_EXTENT : Int := 19

end ResourceType

/-- Closed error enumeration: one constructor per `raise` site (or
Python runtime exception) reachable in the embedded code.
`indexError` models `[0]` on an empty xpath result, except for the two
cross-reference lookups of `_read_hw_disk`, which get the dedicated
`missingReference` constructor; `valueError` models a failed
`int(...)` or a `platform` entry without `=`; `keyError` a missing
attribute; `typeError` using an unset (`None`) field. -/
inductive ConvError : Type where
  | duplicateElement : String → ConvError
  | unsupportedUnits : ConvError
  | missingReference : String → ConvError
  | missingField : String → ConvError
  | conversionFailed : ConvError
  | invalidName : String → ConvError
  | indexError : String → ConvError
  | valueError : String → ConvError
  | keyError : String → ConvError
  | typeError : ConvError
  | zeroDivisionError : ConvError
deriving DecidableEq

/-- The message carried by each `RuntimeError` of `convert.py` (other
constructors model built-in Python exceptions and get a generic text). -/
def ConvError.message : ConvError → String
  | .duplicateElement w => "OVF contains multiple " ++ w ++ " elements."
  | .unsupportedUnits => "Memory units are not MB"
  | .missingReference w => "list index out of range (" ++ w ++ ")"
  | .missingField w => w ++ " is missing!"
  | .conversionFailed => "Disk conversion failed"
  | .invalidName n =>
      "Vm name can only contain alpha-numeric characters, '_', '-' or '.'. Vm name: " ++ n
  | .indexError w => "list index out of range (" ++ w ++ ")"
  | .valueError w => "invalid literal: " ++ w
  | .keyError w => "KeyError: " ++ w
  | .typeError => "TypeError"
  | .zeroDivisionError => "integer division or modulo by zero"

/-- One disk record (`vm.disks` entries are Python dicts with keys
`id`, `name`, `bootable`, `file`, and later `qcow_file`). -/
structure Disk : Type where
  id : String
  name : String
  bootable : Bool
  file : String
  qcow_file : Option String := none
deriving DecidableEq

/-- The `VM` object; field values as set by `VM.__init__`
(the source spells the field `cores_pre_socket`). -/
structure VM : Type where
  name : Option String := none
  cluster : Option String := none
  cpu_count : Option Int := none
  cores_pre_socket : Int := 1
  memory_bytes : Option Int := none
  disks : List Disk := []
deriving DecidableEq

/-- A freshly constructed `VM()`. -/
def VM.init : VM := {}

/-- Decimal-digit run, the core of Python `int(...)`. -/
def parseDigitList (l : List Char) : Option Nat :=
  if l ≠ [] && l.all Char.isDigit then
    some (l.foldl (fun n c => n * 10 + (c.toNat - 48)) 0)
  else none

/-- Python `int(s)` on the strings that occur in OVF documents: an
optional sign followed by decimal digits (surrounding whitespace and
underscore separators, which Python would also accept, are not
modelled). -/
def pyInt (s : String) : Option Int :=
  match s.toList with
  | '-' :: rest => (parseDigitList rest).map (fun n => -(n : Int))
  | '+' :: rest => (parseDigitList rest).map (fun n => (n : Int))
  | l => (parseDigitList l).map (fun n => (n : Int))

/-- The text nodes selected by the xpath `tag/text()` relative to `e`:
texts of the children whose tag is `tag`. -/
def childTexts (e : Element) (tag : String) : List String :=
  (e.children.filter (fun c => c.tag == tag)).filterMap Element.text

/-- `elem.xpath("tag/text()")[0]`: first such text node, or an
`IndexError`. -/
def xpathFirstText (e : Element) (tag : String) : Except ConvError String :=
  match childTexts e tag with
  | [] => .error (.indexError tag)
  | s :: _ => .ok s

/-- `int(elem.xpath("tag/text()")[0])`. -/
def xpathFirstInt (e : Element) (tag : String) : Except ConvError Int :=
  match xpathFirstText e tag with
  | .error er => .error er
  | .ok s =>
    match pyInt s with
    | none => .error (.valueError s)
    | some n => .ok n

/-- `handle_elem` of `convert.py`: compute the key with `mapper`
(which itself may raise), dispatch to the handler registered for it,
and on an unknown key warn and leave the state unchanged. -/
def handle_elem {κ : Type} [BEq κ] (elem : Element)
    (handlers : List (κ × (Element → VM → Except ConvError VM)))
    (mapper : Element → Except ConvError κ) (vm : VM) : Except ConvError VM :=
  match mapper elem with
  | .error er => .error er
  | .ok key =>
    match handlers.lookup key with
    | none => .ok vm
    | some h => h elem vm

/-- The default mapper of `handle_elem`: the element's tag. -/
def tagMapper (e : Element) : Except ConvError String := .ok e.tag

/-- `noop_handler`. -/
def noop_handler (_ : Element) (vm : VM) : Except ConvError VM := .ok vm

/-- `ignore_and_warn` (the warning side effect is dropped). -/
def ignore_and_warn (_ : Element) (vm : VM) : Except ConvError VM := .ok vm

/-- `OvfReader._read_hw_cpu`. -/
def read_hw_cpu (elem : Element) (vm : VM) : Except ConvError VM :=
  if vm.cpu_count.isSome then
    .error (.duplicateElement "CPU")
  else
    match xpathFirstInt elem (ns_tag "rasd" "VirtualQuantity") with
    | .error er => .error er
    | .ok n => .ok { vm with cpu_count := some n }

/-- `OvfReader._read_hw_memory`. -/
def read_hw_memory (elem : Element) (vm : VM) : Except ConvError VM :=
  if vm.memory_bytes.isSome then
    .error (.duplicateElement "memory")
  else
    match xpathFirstText elem (ns_tag "rasd" "AllocationUnits") with
    | .error er => .error er
    | .ok units =>
      if units != "byte * 2^20" then
        .error .unsupportedUnits
      else
        match xpathFirstInt elem (ns_tag "rasd" "VirtualQuantity") with
        | .error er => .error er
        | .ok mem_mb => .ok { vm with memory_bytes := some (mem_mb * 1024 * 1024) }

/-- The predicate `ovf:Disk[@ovf:diskId='did']`. -/
def diskMatches (did : String) (d : Element) : Bool :=
  d.tag == ns_tag "ovf" "Disk" && d.attr (ns_tag "ovf" "diskId") == some did

/-- The predicate `ovf:File[@ovf:id='fid']`. -/
def fileMatches (fid : String) (f : Element) : Bool :=
  f.tag == ns_tag "ovf" "File" && f.attr (ns_tag "ovf" "id") == some fid

/-- The xpath
`/ovf:Envelope/ovf:DiskSection/ovf:Disk[@ovf:diskId='did']`
evaluated against the document root. -/
def diskLookup (root : Element) (did : String) : List Element :=
  if root.tag == ns_tag "ovf" "Envelope" then
    ((root.children.filter
        (fun c => c.tag == ns_tag "ovf" "DiskSection")).flatMap Element.children).filter
      (diskMatches did)
  else []

/-- The xpath `/ovf:Envelope/ovf:References/ovf:File[@ovf:id='fid']`
evaluated against the document root. -/
def fileLookup (root : Element) (fid : String) : List Element :=
  if root.tag == ns_tag "ovf" "Envelope" then
    ((root.children.filter
        (fun c => c.tag == ns_tag "ovf" "References")).flatMap Element.children).filter
      (fileMatches fid)
  else []

/-- `OvfReader._read_hw_disk` (`root` is `self._ovf`); `[0]` on an
empty cross-reference lookup is the missing-reference condition. -/
def read_hw_disk (root : Element) (elem : Element) (vm : VM) : Except ConvError VM :=
  match xpathFirstText elem (ns_tag "rasd" "InstanceID") with
  | .error er => .error er
  | .ok disk_id =>
    match (diskLookup root disk_id).head? with
    | none => .error (.missingReference "Disk")
    | some disk_elem =>
      match disk_elem.attr (ns_tag "ovf" "fileRef") with
      | none => .error (.keyError "fileRef")
      | some file_id =>
        match (fileLookup root file_id).head? with
        | none => .error (.missingReference "File")
        | some file_elem =>
          match xpathFirstText elem (ns_tag "rasd" "ElementName") with
          | .error er => .error er
          | .ok nm =>
            match disk_elem.attr (ns_tag "xenovf" "isBootable") with
            | none => .error (.keyError "isBootable")
            | some boot =>
              match file_elem.attr (ns_tag "ovf" "href") with
              | none => .error (.keyError "href")
              | some href =>
                .ok { vm with disks := vm.disks ++
                  [{ id := disk_id, name := nm,
                     bootable := boot == "true" || boot == "True",
                     file := href }] }

/-- Python `s.split(sep)` for a one-character separator, over the
character list (`"".split(sep) == ['']`). -/
def pySplit (sep : Char) : List Char → List (List Char)
  | [] => [[]]
  | c :: rest =>
    if c == sep then [] :: pySplit sep rest
    else
      match pySplit sep rest with
      | [] => [[c]]
      | h :: t => (c :: h) :: t

/-- Python `s.split(sep, maxsplit=1)` for a one-character separator:
split at the first occurrence only. -/
def pySplitOnce (sep : Char) : List Char → List (List Char)
  | [] => [[]]
  | c :: rest =>
    if c == sep then [[], rest]
    else
      match pySplitOnce sep rest with
      | [] => [[c]]
      | h :: t => (c :: h) :: t

/-- One `key=value` entry of the `platform` string
(`[key, value] = p.split('=', maxsplit=1)`; a destructuring of a
one-element list raises `ValueError`). -/
def platformEntry (vm : VM) (p : String) : Except ConvError VM :=
  if p == "" then .ok vm
  else
    match pySplitOnce '=' p.toList with
    | [key, value] =>
      if String.mk key == "cores-per-socket" then
        match pyInt (String.mk value) with
        | none => .error (.valueError p)
        | some n => .ok { vm with cores_pre_socket := n }
      else .ok vm
    | _ => .error (.valueError p)

/-- `OvfReader._read_hw_platform`. -/
def read_hw_platform (elem : Element) (vm : VM) : Except ConvError VM :=
  match xpathFirstText elem (ns_tag "xenovf" "Value") with
  | .error er => .error er
  | .ok info_str =>
    (pySplit ';' info_str.toList).foldlM (fun vm p => platformEntry vm (String.mk p)) vm

/-- The mapper of `handle_item`:
`int(e.xpath("rasd:ResourceType/text()")[0])`. -/
def itemTypeMapper (e : Element) : Except ConvError Int :=
  xpathFirstInt e (ns_tag "rasd" "ResourceType")

/-- `handle_item` inside `OvfReader._read_hardware`. -/
def handle_item (root : Element) (e : Element) (vm : VM) : Except ConvError VM :=
  handle_elem e [
    (ResourceType.CPU, read_hw_cpu),
    (ResourceType.MEMORY, read_hw_memory),
    (ResourceType.ETHERNET, ignore_and_warn),
    (ResourceType.CD_DRIVE, ignore_and_warn),
    (ResourceType.DVD_DRIVE, ignore_and_warn),
    (ResourceType.STORAGE_EXTENT, read_hw_disk root)
  ] itemTypeMapper vm

/-- The mapper of `handle_other_config`: `e.attrib["Name"]`. -/
def nameAttrMapper (e : Element) : Except ConvError String :=
  match e.attr "Name" with
  | none => .error (.keyError "Name")
  | some s => .ok s

/-- `handle_other_config` inside `OvfReader._read_hardware`. -/
def handle_other_config (e : Element) (vm : VM) : Except ConvError VM :=
  handle_elem e [
    ("HVM_boot_params", ignore_and_warn),
    ("HVM_boot_policy", ignore_and_warn),
    ("platform", read_hw_platform),
    ("hardware_platform_version", noop_handler)
  ] nameAttrMapper vm

/-- Processing of one child of the `VirtualHardwareSection`. -/
def hwStep (root : Element) (vm : VM) (c : Element) : Except ConvError VM :=
  handle_elem c [
    (ns_tag "ovf" "Info", ignore_and_warn),
    (ns_tag "ovf" "System", ignore_and_warn),
    (ns_tag "ovf" "Item", handle_item root),
    (ns_tag "xenovf" "VirtualSystemOtherConfigurationData", handle_other_config)
  ] tagMapper vm

/-- `OvfReader._read_hardware`. -/
def read_hardware (root : Element) (elem : Element) (vm : VM) : Except ConvError VM :=
  elem.children.foldlM (hwStep root) vm

/-- `set_name` inside `OvfReader._read_ovf_virtual_system`
(`self._vm.name = name_elem.text`). -/
def set_name (e : Element) (vm : VM) : Except ConvError VM :=
  .ok { vm with name := e.text }

/-- Processing of one child of the `VirtualSystem` element. -/
def vsStep (root : Element) (vm : VM) (c : Element) : Except ConvError VM :=
  handle_elem c [
    (ns_tag "ovf" "Info", ignore_and_warn),
    (ns_tag "ovf" "Name", set_name),
    (ns_tag "ovf" "OperatingSystemSection", ignore_and_warn),
    (ns_tag "ovf" "VirtualHardwareSection", read_hardware root)
  ] tagMapper vm

/-- `OvfReader._read_ovf_virtual_system`. -/
def read_ovf_virtual_system (root : Element) (elem : Element) (vm : VM) :
    Except ConvError VM :=
  elem.children.foldlM (vsStep root) vm

/-- Processing of one child of the envelope. -/
def envStep (root : Element) (vm : VM) (c : Element) : Except ConvError VM :=
  handle_elem c [
    (ns_tag "ovf" "References", noop_handler),
    (ns_tag "ovf" "DiskSection", noop_handler),
    (ns_tag "ovf" "NetworkSection", noop_handler),
    (ns_tag "ovf" "StartupSection", ignore_and_warn),
    (ns_tag "ovf" "VirtualSystem", read_ovf_virtual_system root)
  ] tagMapper vm

/-- `OvfReader._read_ovf_envelope`. -/
def read_ovf_envelope (root : Element) (elem : Element) (vm : VM) :
    Except ConvError VM :=
  elem.children.foldlM (envStep root) vm

/-- `OvfReader._check_required_fields` (returning the checked VM). -/
def check_required_fields (vm : VM) : Except ConvError VM :=
  if vm.name.isNone then .error (.missingField "Name")
  else if vm.cpu_count.isNone then .error (.missingField "CPU count information")
  else if vm.memory_bytes.isNone then .error (.missingField "Memory information")
  else .ok vm

/-- `OvfReader.read_xen_ovf`: walk the envelope from a fresh `VM()`,
then check required fields. -/
def read_xen_ovf (ovf_root : Element) : Except ConvError VM :=
  match read_ovf_envelope ovf_root ovf_root VM.init with
  | .error er => .error er
  | .ok vm => check_required_fields vm

/-- The command line `convert_disks` passes to `subprocess.call`. -/
def qemuArgv (disk_file out_file : String) : List String :=
  ["qemu-img", "convert", "-f", "vpc", "-O", "qcow2", disk_file, out_file]

/-- The loop body of `convert_disks`, processing the remaining disks in
declaration order. `tool src dst` is the exit status of
`subprocess.call(qemuArgv src dst)`; the second component returned is
the list of external command lines actually invoked. -/
def convert_disk_loop (skip_conversion : Bool) (tool : String → String → Int) :
    List Disk → Except ConvError (List Disk × List (List String))
  | [] => .ok ([], [])
  | disk :: rest =>
    let out_file := disk.id ++ ".qcow2"
    if skip_conversion then
      match convert_disk_loop skip_conversion tool rest with
      | .error er => .error er
      | .ok (ds, calls) => .ok ({ disk with qcow_file := some out_file } :: ds, calls)
    else
      if tool disk.file out_file != 0 then
        .error .conversionFailed
      else
        match convert_disk_loop skip_conversion tool rest with
        | .error er => .error er
        | .ok (ds, calls) =>
          .ok ({ disk with qcow_file := some out_file } :: ds,
            qemuArgv disk.file out_file :: calls)

/-- `convert_disks`: returns the VM with updated disk records plus the
invoked command lines. -/
def convert_disks (vm : VM) (skip_conversion : Bool)
    (tool : String → String → Int) : Except ConvError (VM × List (List String)) :=
  match convert_disk_loop skip_conversion tool vm.disks with
  | .error er => .error er
  | .ok (ds, calls) => .ok ({ vm with disks := ds }, calls)

/-- One character of Python's `\w` on the ASCII range, extended with
the two extra characters of `VM_NAME_PATTERN = re.compile("[\w.-]*")`. -/
def isNameChar (c : Char) : Bool :=
  c.isAlphanum || c == '_' || c == '.' || c == '-'

/-- `VM_NAME_PATTERN.fullmatch(s)` for ASCII strings `s`: the whole
string is a (possibly empty) run of `[\w.-]` characters. -/
def vmNameFullmatch (s : String) : Bool :=
  s.toList.all isNameChar

/-- The CPU topology of the creation request. -/
structure CpuTopology : Type where
  sockets : Int
  cores : Int
  threads : Int
deriving DecidableEq

/-- The `sdk.types.Vm` creation request assembled by `add_vm_to_ovirt`
(only the fields the code sets). -/
structure VmRequest : Type where
  name : String
  cluster : Option String
  template_id : String
  topology : CpuTopology
  memory : Int
deriving DecidableEq

/-- `add_vm_to_ovirt` up to the remote `vms_service.add(vm)` call: name
validation followed by construction of the creation request. Using an
unset (`None`) field raises `TypeError` in Python; `//` is floor
division (`Int.fdiv`), raising `ZeroDivisionError` on a zero divisor. -/
def add_vm_to_ovirt (vm_def : VM) : Except ConvError VmRequest :=
  match vm_def.name with
  | none => .error .typeError
  | some nm =>
    if !vmNameFullmatch nm then
      .error (.invalidName nm)
    else
      match vm_def.cpu_count, vm_def.memory_bytes with
      | some cc, some mb =>
        if vm_def.cores_pre_socket == 0 then .error .zeroDivisionError
        else
          .ok { name := nm,
                cluster := vm_def.cluster,
                template_id := "00000000-0000-0000-0000-000000000000",
                topology := { sockets := cc.fdiv vm_def.cores_pre_socket,
                              cores := vm_def.cores_pre_socket,
                              threads := 1 },
                memory := mb }
      | _, _ => .error .typeError

/-!
Concrete envelope builders used by the theorems below.
-/

/-- A `rasd`-namespaced child carrying only text. -/
def rasdText (loc v : String) : Element :=
  .mk (ns_tag "rasd" loc) [] (some v) []

/-- A CPU hardware `Item` (`ResourceType` 3) with the given
`VirtualQuantity` text. -/
def cpuItem (q : String) : Element :=
  .mk (ns_tag "ovf" "Item") [] none
    [rasdText "ResourceType" "3", rasdText "VirtualQuantity" q]

/-- A memory hardware `Item` (`ResourceType` 4) with the given
`AllocationUnits` and `VirtualQuantity` texts. -/
def memItem (units q : String) : Element :=
  .mk (ns_tag "ovf" "Item") [] none
    [rasdText "ResourceType" "4", rasdText "AllocationUnits" units,
     rasdText "VirtualQuantity" q]

/-- A storage-extent hardware `Item` (`ResourceType` 19) with the given
`InstanceID` and `ElementName` texts. -/
def storageItem (iid nm : String) : Element :=
  .mk (ns_tag "ovf" "Item") [] none
    [rasdText "ResourceType" "19", rasdText "InstanceID" iid,
     rasdText "ElementName" nm]

/-- The `ovf:Name` element of a `VirtualSystem`. -/
def nameElem (nm : String) : Element :=
  .mk (ns_tag "ovf" "Name") [] (some nm) []

/-- A `VirtualHardwareSection` with the given children. -/
def hwSection (items : List Element) : Element :=
  .mk (ns_tag "ovf" "VirtualHardwareSection") [] none items

/-- A `VirtualSystem` with the given children. -/
def virtualSystem (children : List Element) : Element :=
  .mk (ns_tag "ovf" "VirtualSystem") [] none children

/-- An `ovf:Envelope` with the given children. -/
def envelope (children : List Element) : Element :=
  .mk (ns_tag "ovf" "Envelope") [] none children

/-- A minimal valid envelope: a `Name`, one CPU item, one memory item in
megabytes. -/
def minimalEnvelope (nm q m : String) : Element :=
  envelope [virtualSystem
    [nameElem nm, hwSection [cpuItem q, memItem "byte * 2^20" m]]]

/-- An envelope whose virtual-hardware section has exactly the given
items (and no `Name`; parsing the hardware happens first). -/
def envOfItems (items : List Element) : Element :=
  envelope [virtualSystem [hwSection items]]

/-- An `ovf:Disk` entry of the `DiskSection`. -/
def diskEntry (did fileRef bootable : String) : Element :=
  .mk (ns_tag "ovf" "Disk")
    [(ns_tag "ovf" "diskId", did), (ns_tag "ovf" "fileRef", fileRef),
     (ns_tag "xenovf" "isBootable", bootable)] none []

/-- An `ovf:File` entry of the `References` section. -/
def fileEntry (fid href : String) : Element :=
  .mk (ns_tag "ovf" "File")
    [(ns_tag "ovf" "id", fid), (ns_tag "ovf" "href", href)] none []

/-- An envelope with explicit `References` and `DiskSection` contents,
followed by arbitrary further children. -/
def envWithSections (files disks rest : List Element) : Element :=
  envelope ([.mk (ns_tag "ovf" "References") [] none files,
             .mk (ns_tag "ovf" "DiskSection") [] none disks] ++ rest)

/-!
Theorems.
-/

@[simp] theorem Element.tag_mk (t : String) (a : List (String × String))
    (x : Option String) (c : List Element) : (Element.mk t a x c).tag = t := rfl

@[simp] theorem Element.attribs_mk (t : String) (a : List (String × String))
    (x : Option String) (c : List Element) : (Element.mk t a x c).attribs = a := rfl

@[simp] theorem Element.text_mk (t : String) (a : List (String × String))
    (x : Option String) (c : List Element) : (Element.mk t a x c).text = x := rfl

@[simp] theorem Element.children_mk (t : String) (a : List (String × String))
    (x : Option String) (c : List Element) : (Element.mk t a x c).children = c := rfl

/-- With no further `DiskSection` sibling, the disk lookup scans exactly
the `DiskSection` contents. -/
theorem diskLookup_sections (files disks rest : List Element) (did : String)
    (hrest : ∀ r ∈ rest, r.tag ≠ ns_tag "ovf" "DiskSection") :
    diskLookup (envWithSections files disks rest) did = disks.filter (diskMatches did) := by
  have h1 : rest.filter (fun c => c.tag == ns_tag "ovf" "DiskSection") = [] := by
    rw [List.filter_eq_nil_iff]
    intro a ha
    simpa using hrest a ha
  have e1 : (ns_tag "ovf" "References" == ns_tag "ovf" "DiskSection") = false := by decide
  simp [diskLookup, envWithSections, envelope, List.filter_append, h1, e1]

/-- With no further `References` sibling, the file lookup scans exactly
the `References` contents. -/
theorem fileLookup_sections (files disks rest : List Element) (fid : String)
    (hrest : ∀ r ∈ rest, r.tag ≠ ns_tag "ovf" "References") :
    fileLookup (envWithSections files disks rest) fid = files.filter (fileMatches fid) := by
  have h1 : rest.filter (fun c => c.tag == ns_tag "ovf" "References") = [] := by
    rw [List.filter_eq_nil_iff]
    intro a ha
    simpa using hrest a ha
  have e1 : (ns_tag "ovf" "DiskSection" == ns_tag "ovf" "References") = false := by decide
  simp [fileLookup, envWithSections, envelope, List.filter_append, h1, e1]

/-- A filter with a unique hit is stable under permutation. -/
theorem filter_perm_singleton {α : Type} (p : α → Bool) {l1 l2 : List α} (h : l1.Perm l2)
    {x : α} (hx : l1.filter p = [x]) : l2.filter p = [x] := by
  have hp := h.filter p
  rw [hx] at hp
  exact (List.perm_singleton.mp hp.symm)

/-- C5: disk resolution is order-independent — when the item's instance
ID matches exactly one `Disk` and that disk's `fileRef` matches exactly
one `File`, permuting the `Disk` entries, the `File` entries, and the
remaining envelope children (in particular the `Item` siblings) yields
the identical resolution result. -/
theorem c5_disk_resolution_order_independent
    (files1 files2 disks1 disks2 rest1 rest2 : List Element)
    (e : Element) (vm : VM) (did fid : String) (d0 f0 : Element)
    (hr1d : ∀ r ∈ rest1, r.tag ≠ ns_tag "ovf" "DiskSection")
    (hr1f : ∀ r ∈ rest1, r.tag ≠ ns_tag "ovf" "References")
    (hr2d : ∀ r ∈ rest2, r.tag ≠ ns_tag "ovf" "DiskSection")
    (hr2f : ∀ r ∈ rest2, r.tag ≠ ns_tag "ovf" "References")
    (hpd : disks1.Perm disks2) (hpf : files1.Perm files2)
    (hi : xpathFirstText e (ns_tag "rasd" "InstanceID") = .ok did)
    (hd1 : disks1.filter (diskMatches did) = [d0])
    (hfr : d0.attr (ns_tag "ovf" "fileRef") = some fid)
    (hf1 : files1.filter (fileMatches fid) = [f0]) :
    read_hw_disk (envWithSections files1 disks1 rest1) e vm =
      read_hw_disk (envWithSections files2 disks2 rest2) e vm := by
  have hd2 := filter_perm_singleton (diskMatches did) hpd hd1
  have hf2 := filter_perm_singleton (fileMatches fid) hpf hf1
  have l1 := diskLookup_sections files1 disks1 rest1 did hr1d
  have l2 := diskLookup_sections files2 disks2 rest2 did hr2d
  have g1 := fileLookup_sections files1 disks1 rest1 fid hr1f
  have g2 := fileLookup_sections files2 disks2 rest2 fid hr2f
  simp [read_hw_disk, hi, l1, l2, g1, g2, hd1, hd2, hf1, hf2, hfr]

/-- C5 witness: swapping two `Disk` entries and two `File` entries, and
adding an unrelated sibling, resolves the same record. -/
theorem c5_witness :
    read_hw_disk
      (envWithSections [fileEntry "f1" "a.vhd", fileEntry "f2" "b.vhd"]
        [diskEntry "1" "f1" "True", diskEntry "2" "f2" "false"] [])
      (storageItem "1" "d0") VM.init =
    read_hw_disk
      (envWithSections [fileEntry "f2" "b.vhd", fileEntry "f1" "a.vhd"]
        [diskEntry "2" "f2" "false", diskEntry "1" "f1" "True"] [storageItem "9" "zz"])
      (storageItem "1" "d0") VM.init :=
  c5_disk_resolution_order_independent
    [fileEntry "f1" "a.vhd", fileEntry "f2" "b.vhd"]
    [fileEntry "f2" "b.vhd", fileEntry "f1" "a.vhd"]
    [diskEntry "1" "f1" "True", diskEntry "2" "f2" "false"]
    [diskEntry "2" "f2" "false", diskEntry "1" "f1" "True"]
    [] [storageItem "9" "zz"]
    (storageItem "1" "d0") VM.init "1" "f1"
    (diskEntry "1" "f1" "True") (fileEntry "f1" "a.vhd")
    (by simp) (by simp)
    (by intro r hr; rw [List.mem_singleton] at hr; subst hr; decide)
    (by intro r hr; rw [List.mem_singleton] at hr; subst hr; decide)
    (List.Perm.swap (diskEntry "2" "f2" "false") (diskEntry "1" "f1" "True") [])
    (List.Perm.swap (fileEntry "f2" "b.vhd") (fileEntry "f1" "a.vhd") [])
    rfl rfl rfl rfl

/-- C8: in skip-conversion mode `convert_disks` performs no external
invocation and records `<id>.qcow2` on every disk record. -/
theorem c8_skip_mode_records_names (vm : VM) (tool : String → String → Int) :
    convert_disks vm true tool =
      .ok ({ vm with
             disks := vm.disks.map (fun d => { d with qcow_file := some (d.id ++ ".qcow2") }) },
           []) := by
  have h : ∀ l : List Disk, convert_disk_loop true tool l =
      .ok (l.map (fun d => { d with qcow_file := some (d.id ++ ".qcow2") }), []) := by
    intro l
    induction l with
    | nil => rfl
    | cons d t ih => simp [convert_disk_loop, ih]
  simp [convert_disks, h]

/-- A validated VM with the empty string as its name. -/
def emptyNameVM : VM :=
  { name := some "", cpu_count := some 4, memory_bytes := some 1024 }

/-- C10: the empty VM name passes `add_vm_to_ovirt`'s validation (the
compiled pattern uses `*`), so no invalid-name error is raised. -/
theorem c10_empty_name_passes :
    vmNameFullmatch "" = true ∧
    add_vm_to_ovirt emptyNameVM =
      .ok { name := "", cluster := none,
            template_id := "00000000-0000-0000-0000-000000000000",
            topology := { sockets := 4, cores := 1, threads := 1 },
            memory := 1024 } :=
  ⟨rfl, rfl⟩

/-- C1: a minimal envelope with a `Name`, one CPU item and one memory
item in megabyte units parses successfully into a VM with the matching
name, CPU count, and `memory_bytes = quantity * 1024 * 1024`. -/
theorem c1_minimal_envelope_parses (nm q m : String) (cq mq : Int)
    (hq : pyInt q = some cq) (hm : pyInt m = some mq) :
    read_xen_ovf (minimalEnvelope nm q m) =
      .ok { name := some nm, cluster := none, cpu_count := some cq,
            cores_pre_socket := 1, memory_bytes := some (mq * 1024 * 1024), disks := [] } := by
  have h3 : pyInt "3" = some 3 := rfl
  have h4 : pyInt "4" = some 4 := rfl
  simp [read_xen_ovf, read_ovf_envelope, envStep, read_ovf_virtual_system, vsStep,
    read_hardware, hwStep, handle_elem, tagMapper, handle_item, itemTypeMapper,
    xpathFirstInt, xpathFirstText, childTexts, read_hw_cpu, read_hw_memory, set_name,
    minimalEnvelope, envelope, virtualSystem, nameElem, hwSection, cpuItem, memItem, rasdText,
    Element.children, Element.tag, Element.text, ns_tag, XML_NAMESPACES,
    List.foldlM, List.lookup, check_required_fields, h3, h4, hq, hm, noop_handler,
    ignore_and_warn, VM.init, ResourceType.CPU, ResourceType.MEMORY, ResourceType.ETHERNET,
    ResourceType.CD_DRIVE, ResourceType.DVD_DRIVE, ResourceType.STORAGE_EXTENT,
    Bind.bind, Except.bind, Option.isSome, Pure.pure, Except.pure]

/-- C1 witness: `Name = "vm1"`, 4 CPUs, 512 MB. -/
theorem c1_witness :
    read_xen_ovf (minimalEnvelope "vm1" "4" "512") =
      .ok { name := some "vm1", cluster := none, cpu_count := some 4,
            cores_pre_socket := 1, memory_bytes := some (512 * 1024 * 1024), disks := [] } :=
  c1_minimal_envelope_parses "vm1" "4" "512" 4 512 rfl rfl

/-- A VM with a single disk, used to exhibit the conversion-error
message. -/
def oneDiskVM : VM :=
  { VM.init with
    disks := [{ id := "1", name := "d0", bootable := true, file := "disk1.vhd" }] }

/-- C7 counterexample: when the tool exits nonzero, the raised error is
the fixed message "Disk conversion failed", which does not contain the
offending source file name (`disk1.vhd`). -/
theorem c7_counterexample_message_lacks_file :
    convert_disks oneDiskVM false (fun _ _ => 1) = .error .conversionFailed ∧
    ¬ List.IsInfix "disk1.vhd".toList (ConvError.message .conversionFailed).toList :=
  ⟨rfl, by decide⟩

/-- C7 (amended): when the first failing disk's conversion tool exits
nonzero, `convert_disks` aborts with the conversion-failed error (so no
disk record of the result carries a converted name), but the error
message is the fixed string "Disk conversion failed" and does not name
the source file. -/
theorem c7_conversion_failure_aborts (vm : VM) (tool : String → String → Int)
    (pre post : List Disk) (d : Disk)
    (hsplit : vm.disks = pre ++ d :: post)
    (hpre : ∀ d' ∈ pre, tool d'.file (d'.id ++ ".qcow2") = 0)
    (hd : tool d.file (d.id ++ ".qcow2") ≠ 0) :
    convert_disks vm false tool = .error .conversionFailed ∧
    ConvError.message .conversionFailed = "Disk conversion failed" := by
  refine ⟨?_, rfl⟩
  have h : ∀ pre : List Disk, (∀ d' ∈ pre, tool d'.file (d'.id ++ ".qcow2") = 0) →
      convert_disk_loop false tool (pre ++ d :: post) = .error .conversionFailed := by
    intro pre hpre
    induction pre with
    | nil => simp [convert_disk_loop, hd]
    | cons d' t ih =>
      have h0 : tool d'.file (d'.id ++ ".qcow2") = 0 := hpre d' (by simp)
      simp only [List.cons_append, convert_disk_loop, h0]
      simp [ih (fun x hx => hpre x (by simp [hx]))]
  simp [convert_disks, hsplit, h pre hpre]

/-- C3: a memory item whose `AllocationUnits` is not exactly
`byte * 2^20` makes the memory reader fail — with the
unsupported-units error when no memory was stored yet — and in no
state does the reader store a memory value for it. -/
theorem c3_memory_units_strict (e : Element) (vm : VM) (u : String)
    (hu : xpathFirstText e (ns_tag "rasd" "AllocationUnits") = .ok u)
    (hne : u ≠ "byte * 2^20") :
    (vm.memory_bytes = none → read_hw_memory e vm = .error .unsupportedUnits) ∧
    ∀ vm', read_hw_memory e vm ≠ .ok vm' := by
  have hb : (u != "byte * 2^20") = true := by simpa using hne
  constructor
  · intro hnone
    simp [read_hw_memory, hnone, hu, hb]
  · intro vm'
    rcases h : vm.memory_bytes with _ | m
    · simp [read_hw_memory, h, hu, hb]
    · simp [read_hw_memory, h]

/-- C3 witness: a concrete memory item with units "bytes". -/
theorem c3_witness :
    read_hw_memory (memItem "bytes" "512") VM.init = .error .unsupportedUnits :=
  (c3_memory_units_strict (memItem "bytes" "512") VM.init "bytes" rfl (by decide)).1 rfl

/-- C4: a storage-extent item whose instance ID matches no `Disk`, or
whose matched `Disk`'s `fileRef` matches no `File`, makes the disk
reader abort with the missing-reference error (no record is appended).
-/
theorem c4_disk_missing_reference (root e : Element) (vm : VM) (did : String)
    (hi : xpathFirstText e (ns_tag "rasd" "InstanceID") = .ok did) :
    (diskLookup root did = [] →
      read_hw_disk root e vm = .error (.missingReference "Disk")) ∧
    (∀ d fid, (diskLookup root did).head? = some d →
      d.attr (ns_tag "ovf" "fileRef") = some fid →
      fileLookup root fid = [] →
      read_hw_disk root e vm = .error (.missingReference "File")) := by
  constructor
  · intro hnil
    simp [read_hw_disk, hi, hnil]
  · intro d fid hdl hfr hfl
    simp [read_hw_disk, hi, hdl, hfr, hfl]

/-- C4 witness: a document with no matching `Disk`, and one whose
`Disk` matches but whose `File` is absent. -/
theorem c4_witness :
    read_hw_disk (envWithSections [] [] []) (storageItem "1" "d0") VM.init =
      .error (.missingReference "Disk") ∧
    read_hw_disk (envWithSections [] [diskEntry "1" "f1" "True"] [])
      (storageItem "1" "d0") VM.init = .error (.missingReference "File") :=
  ⟨(c4_disk_missing_reference (envWithSections [] [] [])
      (storageItem "1" "d0") VM.init "1" rfl).1 rfl,
   (c4_disk_missing_reference (envWithSections [] [diskEntry "1" "f1" "True"] [])
      (storageItem "1" "d0") VM.init "1" rfl).2
      (diskEntry "1" "f1" "True") "f1" rfl rfl rfl⟩

/-- A VM with two disks; conversion of the second one will fail. -/
def twoDiskVM : VM :=
  { VM.init with
    disks := [{ id := "1", name := "dA", bootable := true, file := "a.vhd" },
              { id := "2", name := "dB", bootable := false, file := "b.vhd" }] }

/-- An exit-status oracle that succeeds only on source `a.vhd`. -/
def abTool : String → String → Int :=
  fun src _ => if src == "a.vhd" then 0 else 1

/-- C7 witness: with the second of two disks failing, conversion aborts
with the fixed message. -/
theorem c7_witness :
    convert_disks twoDiskVM false abTool = .error .conversionFailed ∧
    ConvError.message .conversionFailed = "Disk conversion failed" :=
  c7_conversion_failure_aborts twoDiskVM abTool
    [{ id := "1", name := "dA", bootable := true, file := "a.vhd" }] []
    { id := "2", name := "dB", bootable := false, file := "b.vhd" }
    rfl (by intro d' hd'; simp at hd'; simp [hd', abTool]) (by decide)

/-- C6: a nonempty name whose characters all lie in the class
`[A-Za-z0-9_.-]` passes the target-name validation of
`add_vm_to_ovirt`, while a name containing any character outside that
class (for instance a space or a slash) fails with the invalid-name
error. -/
theorem c6_vm_name_validation (vm : VM) (nm : String) (h : vm.name = some nm) :
    (nm ≠ "" → (∀ c ∈ nm.toList, isNameChar c = true) →
      ∀ s, add_vm_to_ovirt vm ≠ .error (.invalidName s)) ∧
    ((∃ c ∈ nm.toList, isNameChar c = false) →
      add_vm_to_ovirt vm = .error (.invalidName nm)) ∧
    isNameChar ' ' = false ∧ isNameChar '/' = false := by
  refine ⟨?_, ?_, by decide, by decide⟩
  · intro _ hall s
    have hm : vmNameFullmatch nm = true := by
      simp only [vmNameFullmatch, List.all_eq_true]
      exact hall
    rcases hc : vm.cpu_count with _ | cc <;> rcases hb : vm.memory_bytes with _ | mb <;>
      simp [add_vm_to_ovirt, h, hm, hc, hb]
    split <;> simp
  · rintro ⟨c, hc, hcf⟩
    have hm : vmNameFullmatch nm = false := by
      simp only [vmNameFullmatch]
      rw [List.all_eq_false]
      exact ⟨c, hc, by simp [hcf]⟩
    simp [add_vm_to_ovirt, h, hm]

/-- C6 witness: `my-vm_1.x` passes, `a/b` and `a b` fail. -/
theorem c6_witness :
    add_vm_to_ovirt { emptyNameVM with name := some "my-vm_1.x" } ≠
      .error (.invalidName "my-vm_1.x") ∧
    add_vm_to_ovirt { emptyNameVM with name := some "a/b" } =
      .error (.invalidName "a/b") ∧
    add_vm_to_ovirt { emptyNameVM with name := some "a b" } =
      .error (.invalidName "a b") :=
  ⟨(c6_vm_name_validation _ "my-vm_1.x" rfl).1 (by decide) (by decide) "my-vm_1.x",
   (c6_vm_name_validation _ "a/b" rfl).2.1 ⟨'/', by decide, by decide⟩,
   (c6_vm_name_validation _ "a b" rfl).2.1 ⟨' ', by decide, by decide⟩⟩

/-- C9: for a validated VM the target mapper yields the topology
`sockets = cpu_count // cores_pre_socket` (floor division, which on the
nonnegative values at hand is truncating division), `cores =
cores_pre_socket`, `threads = 1`; `cores_pre_socket` is `1` on a fresh
`VM` (no `platform` other-config); a non-divisible pair still
succeeds, silently truncating the socket count. -/
theorem c9_topology_mapping (vm : VM) (nm : String) (cc mb : Int)
    (h1 : vm.name = some nm) (h2 : vmNameFullmatch nm = true)
    (h3 : vm.cpu_count = some cc) (h4 : vm.memory_bytes = some mb)
    (h5 : vm.cores_pre_socket ≠ 0) :
    add_vm_to_ovirt vm =
      .ok { name := nm, cluster := vm.cluster,
            template_id := "00000000-0000-0000-0000-000000000000",
            topology := { sockets := cc.fdiv vm.cores_pre_socket,
                          cores := vm.cores_pre_socket, threads := 1 },
            memory := mb } ∧
    (0 ≤ cc → 0 ≤ vm.cores_pre_socket →
      cc.fdiv vm.cores_pre_socket = cc.tdiv vm.cores_pre_socket) ∧
    VM.init.cores_pre_socket = 1 := by
  have hz : (vm.cores_pre_socket == 0) = false := by simpa using h5
  exact ⟨by simp [add_vm_to_ovirt, h1, h2, h3, h4, hz],
         fun ha hb => Int.fdiv_eq_tdiv ha hb, rfl⟩

/-- C9 witness: name "vm1", 5 CPUs, 2 cores per socket — sockets
truncate to 2; and the default cores value is 1. -/
theorem c9_witness :
    add_vm_to_ovirt { name := some "vm1", cluster := none, cpu_count := some 5,
                      cores_pre_socket := 2, memory_bytes := some 1024, disks := [] } =
      .ok { name := "vm1", cluster := none,
            template_id := "00000000-0000-0000-0000-000000000000",
            topology := { sockets := 2, cores := 2, threads := 1 },
            memory := 1024 } ∧
    VM.init.cores_pre_socket = 1 :=
  ⟨(c9_topology_mapping
      { name := some "vm1", cluster := none, cpu_count := some 5,
        cores_pre_socket := 2, memory_bytes := some 1024, disks := [] }
      "vm1" 5 1024 rfl (by decide) rfl rfl (by decide)).1,
   (c9_topology_mapping
      { name := some "vm1", cluster := none, cpu_count := some 5,
        cores_pre_socket := 2, memory_bytes := some 1024, disks := [] }
      "vm1" 5 1024 rfl (by decide) rfl rfl (by decide)).2.2⟩


/-- A property preserved by every successful step of a monadic fold is
preserved by the fold. -/
theorem foldlM_except_preserve {α : Type} (f : VM → α → Except ConvError VM) (P : VM → Prop)
    (hf : ∀ vm a vm', f vm a = .ok vm' → P vm → P vm') :
    ∀ (l : List α) (vm vm' : VM), List.foldlM f vm l = .ok vm' → P vm → P vm' := by
  intro l
  induction l with
  | nil =>
    intro vm vm' h hp
    simp only [List.foldlM, Pure.pure, Except.pure, Except.ok.injEq] at h
    subst h
    exact hp
  | cons a t ih =>
    intro vm vm' h hp
    rw [List.foldlM_cons] at h
    rcases ha : f vm a with er | v
    · rw [ha] at h
      simp [Bind.bind, Except.bind] at h
    · rw [ha] at h
      simp only [Bind.bind, Except.bind] at h
      exact ih v vm' h (hf vm a v ha hp)

/-- A `platform` entry only ever touches `cores_pre_socket`. -/
theorem platformEntry_counts {vm vm' : VM} {p : String} (h : platformEntry vm p = .ok vm') :
    vm'.cpu_count = vm.cpu_count ∧ vm'.memory_bytes = vm.memory_bytes := by
  unfold platformEntry at h
  split at h
  · cases h
    exact ⟨rfl, rfl⟩
  · split at h
    · split at h
      · split at h
        · cases h
        · cases h
          exact ⟨rfl, rfl⟩
      · cases h
        exact ⟨rfl, rfl⟩
    · cases h

/-- The platform reader only ever touches `cores_pre_socket`. -/
theorem read_hw_platform_counts {e : Element} {vm vm' : VM}
    (h : read_hw_platform e vm = .ok vm') :
    vm'.cpu_count = vm.cpu_count ∧ vm'.memory_bytes = vm.memory_bytes := by
  unfold read_hw_platform at h
  split at h
  · cases h
  · exact foldlM_except_preserve _
      (fun v => v.cpu_count = vm.cpu_count ∧ v.memory_bytes = vm.memory_bytes)
      (fun v a v' hstep hp =>
        ⟨(platformEntry_counts hstep).1.trans hp.1, (platformEntry_counts hstep).2.trans hp.2⟩)
      _ vm vm' h ⟨rfl, rfl⟩


/-- A successful CPU read leaves `cpu_count` set and memory untouched. -/
theorem read_hw_cpu_counts {e : Element} {vm vm' : VM} (h : read_hw_cpu e vm = .ok vm') :
    vm'.cpu_count.isSome ∧ vm'.memory_bytes = vm.memory_bytes := by
  unfold read_hw_cpu at h
  split at h
  · cases h
  · split at h
    · cases h
    · cases h
      exact ⟨rfl, rfl⟩

/-- A successful memory read leaves `memory_bytes` set and the CPU
count untouched. -/
theorem read_hw_memory_counts {e : Element} {vm vm' : VM} (h : read_hw_memory e vm = .ok vm') :
    vm'.memory_bytes.isSome ∧ vm'.cpu_count = vm.cpu_count := by
  unfold read_hw_memory at h
  split at h
  · cases h
  · split at h
    · cases h
    · split at h
      · cases h
      · split at h
        · cases h
        · cases h
          exact ⟨rfl, rfl⟩

/-- The disk reader never touches `cpu_count` or `memory_bytes`. -/
theorem read_hw_disk_counts {root e : Element} {vm vm' : VM}
    (h : read_hw_disk root e vm = .ok vm') :
    vm'.cpu_count = vm.cpu_count ∧ vm'.memory_bytes = vm.memory_bytes := by
  unfold read_hw_disk at h
  split at h
  · cases h
  · split at h
    · cases h
    · split at h
      · cases h
      · split at h
        · cases h
        · split at h
          · cases h
          · split at h
            · cases h
            · split at h
              · cases h
              · cases h
                exact ⟨rfl, rfl⟩

/-- Other-config handling never touches `cpu_count` or
`memory_bytes`. -/
theorem handle_other_config_counts {e : Element} {vm vm' : VM}
    (h : handle_other_config e vm = .ok vm') :
    vm'.cpu_count = vm.cpu_count ∧ vm'.memory_bytes = vm.memory_bytes := by
  unfold handle_other_config handle_elem at h
  split at h
  · cases h
  · simp only [List.lookup] at h
    split at h
    · cases h
      exact ⟨rfl, rfl⟩
    · rename_i f heq
      split at heq
      · cases heq
        cases h
        exact ⟨rfl, rfl⟩
      · split at heq
        · cases heq
          cases h
          exact ⟨rfl, rfl⟩
        · split at heq
          · cases heq
            exact read_hw_platform_counts h
          · split at heq
            · cases heq
              cases h
              exact ⟨rfl, rfl⟩
            · cases heq


/-- Item handling never unsets `cpu_count` or `memory_bytes`. -/
theorem handle_item_counts {root e : Element} {vm vm' : VM}
    (h : handle_item root e vm = .ok vm') :
    (vm.cpu_count.isSome → vm'.cpu_count.isSome) ∧
    (vm.memory_bytes.isSome → vm'.memory_bytes.isSome) := by
  unfold handle_item handle_elem at h
  split at h
  · cases h
  · simp only [List.lookup] at h
    split at h
    · cases h
      exact ⟨id, id⟩
    · rename_i f heq
      split at heq
      · cases heq
        have hc := read_hw_cpu_counts h
        exact ⟨fun _ => hc.1, fun hm => hc.2 ▸ hm⟩
      · split at heq
        · cases heq
          have hc := read_hw_memory_counts h
          exact ⟨fun hcpu => hc.2 ▸ hcpu, fun _ => hc.1⟩
        · split at heq
          · cases heq
            cases h
            exact ⟨id, id⟩
          · split at heq
            · cases heq
              cases h
              exact ⟨id, id⟩
            · split at heq
              · cases heq
                cases h
                exact ⟨id, id⟩
              · split at heq
                · cases heq
                  have hc := read_hw_disk_counts h
                  exact ⟨fun hcpu => hc.1 ▸ hcpu, fun hm => hc.2 ▸ hm⟩
                · cases heq

/-- One hardware-section step never unsets `cpu_count` or
`memory_bytes`. -/
theorem hwStep_counts {root c : Element} {vm vm' : VM}
    (h : hwStep root vm c = .ok vm') :
    (vm.cpu_count.isSome → vm'.cpu_count.isSome) ∧
    (vm.memory_bytes.isSome → vm'.memory_bytes.isSome) := by
  unfold hwStep handle_elem tagMapper at h
  simp only [List.lookup] at h
  split at h
  · cases h
    exact ⟨id, id⟩
  · rename_i f heq
    split at heq
    · cases heq
      cases h
      exact ⟨id, id⟩
    · split at heq
      · cases heq
        cases h
        exact ⟨id, id⟩
      · split at heq
        · cases heq
          exact handle_item_counts h
        · split at heq
          · cases heq
            have hc := handle_other_config_counts h
            exact ⟨fun hcpu => hc.1 ▸ hcpu, fun hm => hc.2 ▸ hm⟩
          · cases heq

/-- A hardware-section fold never unsets `cpu_count` or
`memory_bytes`. -/
theorem hwFold_counts {root : Element} {l : List Element} {vm vm' : VM}
    (h : List.foldlM (hwStep root) vm l = .ok vm') :
    (vm.cpu_count.isSome → vm'.cpu_count.isSome) ∧
    (vm.memory_bytes.isSome → vm'.memory_bytes.isSome) := by
  constructor
  · intro hc
    exact foldlM_except_preserve (hwStep root) (fun v => v.cpu_count.isSome = true)
      (fun v a v' hs hp => (hwStep_counts hs).1 hp) l vm vm' h hc
  · intro hm
    exact foldlM_except_preserve (hwStep root) (fun v => v.memory_bytes.isSome = true)
      (fun v a v' hs hp => (hwStep_counts hs).2 hp) l vm vm' h hm


/-- On an `ovf:Item` child the hardware step dispatches to
`handle_item`. -/
theorem hwStep_item {root c : Element} {vm : VM} (h : c.tag = ns_tag "ovf" "Item") :
    hwStep root vm c = handle_item root c vm := by
  have e1 : (ns_tag "ovf" "Item" == ns_tag "ovf" "Info") = false := by decide
  have e2 : (ns_tag "ovf" "Item" == ns_tag "ovf" "System") = false := by decide
  simp [hwStep, handle_elem, tagMapper, List.lookup, h, e1, e2]

/-- An item of resource type 3 dispatches to the CPU reader. -/
theorem handle_item_cpu {root c : Element} {vm : VM}
    (ht : itemTypeMapper c = .ok ResourceType.CPU) :
    handle_item root c vm = read_hw_cpu c vm := by
  simp [handle_item, handle_elem, ht, List.lookup, ResourceType.CPU, ResourceType.MEMORY,
    ResourceType.ETHERNET, ResourceType.CD_DRIVE, ResourceType.DVD_DRIVE,
    ResourceType.STORAGE_EXTENT]

/-- An item of resource type 4 dispatches to the memory reader. -/
theorem handle_item_memory {root c : Element} {vm : VM}
    (ht : itemTypeMapper c = .ok ResourceType.MEMORY) :
    handle_item root c vm = read_hw_memory c vm := by
  simp [handle_item, handle_elem, ht, List.lookup, ResourceType.CPU, ResourceType.MEMORY,
    ResourceType.ETHERNET, ResourceType.CD_DRIVE, ResourceType.DVD_DRIVE,
    ResourceType.STORAGE_EXTENT]

/-- First CPU item: the count is stored. -/
theorem read_hw_cpu_sets {c : Element} {vm : VM} {n : Int}
    (h0 : vm.cpu_count = none)
    (hq : xpathFirstInt c (ns_tag "rasd" "VirtualQuantity") = .ok n) :
    read_hw_cpu c vm = .ok { vm with cpu_count := some n } := by
  simp [read_hw_cpu, h0, hq]

/-- First memory item with megabyte units: the byte count is stored. -/
theorem read_hw_memory_sets {c : Element} {vm : VM} {n : Int}
    (h0 : vm.memory_bytes = none)
    (hu : xpathFirstText c (ns_tag "rasd" "AllocationUnits") = .ok "byte * 2^20")
    (hq : xpathFirstInt c (ns_tag "rasd" "VirtualQuantity") = .ok n) :
    read_hw_memory c vm = .ok { vm with memory_bytes := some (n * 1024 * 1024) } := by
  simp [read_hw_memory, h0, hu, hq]

/-- A CPU item with the count already set raises the duplicate error. -/
theorem read_hw_cpu_dup {c : Element} {vm : VM} (h : vm.cpu_count.isSome) :
    read_hw_cpu c vm = .error (.duplicateElement "CPU") := by
  simp [read_hw_cpu, h]

/-- A memory item with memory already set raises the duplicate error
(before the units are even inspected). -/
theorem read_hw_memory_dup {c : Element} {vm : VM} (h : vm.memory_bytes.isSome) :
    read_hw_memory c vm = .error (.duplicateElement "memory") := by
  simp [read_hw_memory, h]

/-- Reading `envOfItems` is the hardware fold over its items. -/
theorem read_ovf_envelope_items (root : Element) (items : List Element) (vm : VM) :
    read_ovf_envelope root (envOfItems items) vm = List.foldlM (hwStep root) vm items := by
  simp [read_ovf_envelope, envStep, read_ovf_virtual_system, vsStep, read_hardware,
    handle_elem, tagMapper, envOfItems, envelope, virtualSystem, hwSection,
    List.foldlM_cons, List.foldlM_nil, List.lookup, ns_tag, XML_NAMESPACES]

/-- Full parse of `envOfItems`: the hardware fold followed by the
required-fields check. -/
theorem read_xen_ovf_envOfItems (items : List Element) :
    read_xen_ovf (envOfItems items) =
      match List.foldlM (hwStep (envOfItems items)) VM.init items with
      | .error er => .error er
      | .ok vm => check_required_fields vm := by
  unfold read_xen_ovf
  rw [read_ovf_envelope_items]


/-- C2: an envelope whose virtual-hardware section contains a second
CPU item, or a second memory item, always fails to parse with the
corresponding duplicate-element error, wherever the two items sit
relative to each other and to the other (successfully processed)
items of the section. -/
theorem c2_duplicate_item_fails :
    (∀ (pre mid post : List Element) (c1 c2 : Element) (vmA vmB : VM) (n1 : Int),
      List.foldlM (hwStep (envOfItems (pre ++ c1 :: (mid ++ c2 :: post)))) VM.init pre =
        .ok vmA →
      vmA.cpu_count = none →
      c1.tag = ns_tag "ovf" "Item" →
      itemTypeMapper c1 = .ok ResourceType.CPU →
      xpathFirstInt c1 (ns_tag "rasd" "VirtualQuantity") = .ok n1 →
      List.foldlM (hwStep (envOfItems (pre ++ c1 :: (mid ++ c2 :: post))))
        { vmA with cpu_count := some n1 } mid = .ok vmB →
      c2.tag = ns_tag "ovf" "Item" →
      itemTypeMapper c2 = .ok ResourceType.CPU →
      read_xen_ovf (envOfItems (pre ++ c1 :: (mid ++ c2 :: post))) =
        .error (.duplicateElement "CPU")) ∧
    (∀ (pre mid post : List Element) (m1 m2 : Element) (vmA vmB : VM) (n1 : Int),
      List.foldlM (hwStep (envOfItems (pre ++ m1 :: (mid ++ m2 :: post)))) VM.init pre =
        .ok vmA →
      vmA.memory_bytes = none →
      m1.tag = ns_tag "ovf" "Item" →
      itemTypeMapper m1 = .ok ResourceType.MEMORY →
      xpathFirstText m1 (ns_tag "rasd" "AllocationUnits") = .ok "byte * 2^20" →
      xpathFirstInt m1 (ns_tag "rasd" "VirtualQuantity") = .ok n1 →
      List.foldlM (hwStep (envOfItems (pre ++ m1 :: (mid ++ m2 :: post))))
        { vmA with memory_bytes := some (n1 * 1024 * 1024) } mid = .ok vmB →
      m2.tag = ns_tag "ovf" "Item" →
      itemTypeMapper m2 = .ok ResourceType.MEMORY →
      read_xen_ovf (envOfItems (pre ++ m1 :: (mid ++ m2 :: post))) =
        .error (.duplicateElement "memory")) := by
  constructor
  · intro pre mid post c1 c2 vmA vmB n1 hpre hAnone h1tag h1typ h1q hmid h2tag h2typ
    have hstep1 : hwStep (envOfItems (pre ++ c1 :: (mid ++ c2 :: post))) vmA c1 =
        .ok { vmA with cpu_count := some n1 } := by
      rw [hwStep_item h1tag, handle_item_cpu h1typ, read_hw_cpu_sets hAnone h1q]
    have hBsome : vmB.cpu_count.isSome :=
      (hwFold_counts hmid).1 (by simp)
    have hstep2 : hwStep (envOfItems (pre ++ c1 :: (mid ++ c2 :: post))) vmB c2 =
        .error (.duplicateElement "CPU") := by
      rw [hwStep_item h2tag, handle_item_cpu h2typ, read_hw_cpu_dup hBsome]
    rw [read_xen_ovf_envOfItems]
    simp only [List.foldlM_append, List.foldlM_cons, hpre, hstep1, hmid, hstep2,
      Bind.bind, Except.bind]
  · intro pre mid post m1 m2 vmA vmB n1 hpre hAnone h1tag h1typ h1u h1q hmid h2tag h2typ
    have hstep1 : hwStep (envOfItems (pre ++ m1 :: (mid ++ m2 :: post))) vmA m1 =
        .ok { vmA with memory_bytes := some (n1 * 1024 * 1024) } := by
      rw [hwStep_item h1tag, handle_item_memory h1typ, read_hw_memory_sets hAnone h1u h1q]
    have hBsome : vmB.memory_bytes.isSome :=
      (hwFold_counts hmid).2 (by simp)
    have hstep2 : hwStep (envOfItems (pre ++ m1 :: (mid ++ m2 :: post))) vmB m2 =
        .error (.duplicateElement "memory") := by
      rw [hwStep_item h2tag, handle_item_memory h2typ, read_hw_memory_dup hBsome]
    rw [read_xen_ovf_envOfItems]
    simp only [List.foldlM_append, List.foldlM_cons, hpre, hstep1, hmid, hstep2,
      Bind.bind, Except.bind]

/-- C2 witness: a second CPU item after a memory item, and a second
memory item (with different units) after a CPU item, both fail with
the duplicate-element error. -/
theorem c2_witness :
    read_xen_ovf (envOfItems [cpuItem "4", memItem "byte * 2^20" "512", cpuItem "2"]) =
      .error (.duplicateElement "CPU") ∧
    read_xen_ovf (envOfItems [memItem "byte * 2^20" "512", cpuItem "4", memItem "bytes" "1"]) =
      .error (.duplicateElement "memory") :=
  ⟨c2_duplicate_item_fails.1 [] [memItem "byte * 2^20" "512"] [] (cpuItem "4") (cpuItem "2")
      VM.init { VM.init with cpu_count := some 4, memory_bytes := some 536870912 } 4
      rfl rfl rfl rfl rfl rfl rfl rfl,
   c2_duplicate_item_fails.2 [] [cpuItem "4"] [] (memItem "byte * 2^20" "512") (memItem "bytes" "1")
      VM.init { VM.init with cpu_count := some 4, memory_bytes := some 536870912 } 512
      rfl rfl rfl rfl rfl rfl rfl rfl rfl⟩
